import Mathlib

set_option autoImplicit false
set_option maxRecDepth 8000

/-
Shallow embedding of src/task_geo/data_sources/noaa/noaa_api_connector.py.

Modelling conventions:
- The static reference maps COUNTRY_AND_TERRITORY_CODES and
  TERRITORY_ACTIVE_STATIONS_MAP (imported by the connector from
  task_geo.data_sources.noaa.references, not part of src/) are injected as
  functions from String to Option (List String), i.e. the dict.get interface
  the connector uses.
- datetime values are modelled by their ISO calendar-date rendering: the
  connector only ever uses start_date.date().isoformat() and
  end_date.date().isoformat(), so a date is a String here, and the ambient
  datetime.now() is an explicit String parameter.
- raising an exception is modelled with Except.
-/

namespace NOAA

def DEFAULT_METRICS : List String := ["TMAX", "TMIN", "TAVG", "PCRP", "SNOW", "SNWD"]

/- The set of valid metric values documented in the docstrings of
get_request_urls (lines 66-72 of the source): TMIN, TMAX, TAVG, SNOW, SNWD, PRCP. -/
def VALID_METRICS : List String := ["TMIN", "TMAX", "TAVG", "SNOW", "SNWD", "PRCP"]

/- Models the ValueError raised by get_stations_by_country on an unknown
country code (the spec calls it UnknownCountryError). -/
inductive UnknownCountryError where
  | wrongCountryCode (country : String)
deriving DecidableEq

/- get_stations_by_country, lines 36-56: look up the territory codes of the
country (raising on an unknown code), then extend an accumulator with the
stations of every territory that is present in the territory map. -/
def get_stations_by_country (countryMap territoryMap : String → Option (List String))
    (country : String) : Except UnknownCountryError (List String) :=
  match countryMap country with
  | none => .error (.wrongCountryCode country)
  | some territory_codes =>
      .ok (territory_codes.foldl (fun stations code =>
        match territoryMap code with
        | none => stations
        | some code_stations => stations ++ code_stations) [])

def BASE_URL : String :=
  "https://www.ncei.noaa.gov/access/services/data/v1?dataset=daily-summaries"

def MAX_STATIONS_REQ : Nat := 50

def request_common_args (metrics : List String) : String :=
  "&format=json" ++ "&units=metric" ++ "&dataTypes=" ++ String.intercalate "," metrics

/- One request URL, following the f-string of lines 100 and 110-111. -/
def make_url (stations start_d end_d : String) (metrics : List String) : String :=
  BASE_URL ++ "&stations=" ++ stations ++ "&startDate=" ++ start_d ++
    "&endDate=" ++ end_d ++ request_common_args metrics

/- The chunking list comprehension of lines 103-106:
[stations_list[i:i + max_stations_req] for i in range(0, len(stations_list), max_stations_req)].
range(0, L, k) has (L + k - 1) / k elements. -/
def chunked {α : Type} (k : Nat) (l : List α) : List (List α) :=
  (List.range' 0 ((l.length + k - 1) / k) k).map fun i => (l.drop i).take k

/- get_request_urls, lines 59-114. -/
def get_request_urls (countryMap territoryMap : String → Option (List String))
    (country : String) (start_date : String) (end_date : Option String)
    (metrics : Option (List String)) (now : String) :
    Except UnknownCountryError (List String) :=
  let ms := metrics.getD DEFAULT_METRICS
  let end_d := end_date.getD now
  match get_stations_by_country countryMap territoryMap country with
  | .error e => .error e
  | .ok stations_list =>
    if stations_list.length < MAX_STATIONS_REQ then
      .ok [make_url (String.intercalate "," stations_list) start_date end_d ms]
    else
      .ok ((chunked MAX_STATIONS_REQ stations_list).map fun chunk =>
        make_url (String.intercalate "," chunk) start_date end_d ms)

/- The two branches of lines 97-114 as one batch list: a single batch holding
the whole station list when it is shorter than MAX_STATIONS_REQ, otherwise the
50-wise chunking. -/
def station_batches (stations_list : List String) : List (List String) :=
  if stations_list.length < MAX_STATIONS_REQ then [stations_list]
  else chunked MAX_STATIONS_REQ stations_list

/- What the remote side does with one GET request, as observed by
get_parse_response: requests.get itself can raise (transportError); otherwise
the response either fails raise_for_status (httpError, carrying the decoded
JSON error body, or none when the body is not JSON so response.json() raises)
or passes it (success, carrying the decoded record list, or none when the body
is not JSON). -/
inductive RequestOutcome (Rec Err : Type) where
  | transportError
  | httpError (payload : Option Err)
  | success (body : Option (List Rec))

/- An exception that get_parse_response does not catch and lets propagate. -/
inductive FatalError where
  | transport (url : String)
  | jsonDecode (url : String)
deriving DecidableEq

/- The error dictionary built at lines 139-142: keys url and error. -/
structure FetchError (Err : Type) where
  url : String
  error : Err
deriving DecidableEq

/- get_parse_response, lines 117-147: one pass over the urls, a single
requests.get per url; on raise_for_status failure the error accumulator grows
and the loop continues; on success the records extend the result accumulator;
uncaught exceptions abort the whole call. -/
def get_parse_response {Rec Err : Type} (http : String → RequestOutcome Rec Err) :
    List String → Except FatalError (List Rec × List (FetchError Err))
  | [] => .ok ([], [])
  | url :: rest =>
    match http url with
    | .transportError => .error (.transport url)
    | .httpError none => .error (.jsonDecode url)
    | .httpError (some payload) =>
      match get_parse_response http rest with
      | .error e => .error e
      | .ok (results, errors) => .ok (results, ⟨url, payload⟩ :: errors)
    | .success none => .error (.jsonDecode url)
    | .success (some records) =>
      match get_parse_response http rest with
      | .error e => .error e
      | .ok (results, errors) => .ok (records ++ results, errors)

/- The same loop, also returning the list of urls actually passed to
requests.get, in call order, so that attempt counts are observable. -/
def get_parse_response_logged {Rec Err : Type} (http : String → RequestOutcome Rec Err) :
    List String → List String × Except FatalError (List Rec × List (FetchError Err))
  | [] => ([], .ok ([], []))
  | url :: rest =>
    match http url with
    | .transportError => ([url], .error (.transport url))
    | .httpError none => ([url], .error (.jsonDecode url))
    | .httpError (some payload) =>
      let next := get_parse_response_logged http rest
      (url :: next.1,
        match next.2 with
        | .error e => .error e
        | .ok (results, errors) => .ok (results, ⟨url, payload⟩ :: errors))
    | .success none => ([url], .error (.jsonDecode url))
    | .success (some records) =>
      let next := get_parse_response_logged http rest
      (url :: next.1,
        match next.2 with
        | .error e => .error e
        | .ok (results, errors) => .ok (records ++ results, errors))

/- An outcome that get_parse_response handles without raising. -/
def nonFatal {Rec Err : Type} : RequestOutcome Rec Err → Bool
  | .transportError => false
  | .httpError none => false
  | .success none => false
  | .httpError (some _) => true
  | .success (some _) => true

/- The records a url contributes to the result accumulator, if any. -/
def successRecords {Rec Err : Type} (http : String → RequestOutcome Rec Err)
    (url : String) : Option (List Rec) :=
  match http url with
  | .success (some records) => some records
  | _ => none

/- The entry a url contributes to the error accumulator, if any. -/
def errorEntry {Rec Err : Type} (http : String → RequestOutcome Rec Err)
    (url : String) : Option (FetchError Err) :=
  match http url with
  | .httpError (some payload) => some ⟨url, payload⟩
  | _ => none

/- A row of a pandas frame: the cells present in it, keyed by column name; a
column absent from the row reads as missing (NaN). -/
abbrev Row := List (String × String)

structure DataFrame where
  cols : List String
  rows : List Row
deriving DecidableEq

/- Column list of pd.DataFrame(records): every key, in order of first
appearance. -/
def firstOccur (keys : List String) : List String :=
  keys.foldl (fun acc k => if k ∈ acc then acc else acc ++ [k]) []

def pd_DataFrame (records : List Row) : DataFrame :=
  ⟨firstOccur ((records.map (fun r => r.map Prod.fst)).flatten), records⟩

/- A pandas KeyError on a missing column, plus the two exception kinds that
can propagate out of the per-country loop. -/
inductive PipelineError where
  | unknownCountry (e : UnknownCountryError)
  | fetchFatal (e : FatalError)
  | keyError (col : String)
deriving DecidableEq

/- data.merge(stations, how='left', left_on='STATION', right_on='ID'),
line 185: every left row is kept; a left row with matching right rows is
repeated once per match with the right cells appended, and one with no match
keeps its cells only (the right columns read as missing). The two frames of
this pipeline have disjoint column names, so no suffixing is modelled. -/
def pd_merge_left (left right : DataFrame) (left_on right_on : String) :
    Except PipelineError DataFrame :=
  if left_on ∈ left.cols then
    if right_on ∈ right.cols then
      .ok ⟨left.cols ++ right.cols,
        (left.rows.map (fun l =>
          let hits := right.rows.filter fun r =>
            (l.lookup left_on).isSome && (l.lookup left_on == r.lookup right_on)
          if hits.isEmpty then [l] else hits.map (fun r => l ++ r))).flatten⟩
    else .error (.keyError right_on)
  else .error (.keyError left_on)

/- del data[col], lines 187-188. -/
def pd_del (df : DataFrame) (col : String) : Except PipelineError DataFrame :=
  if col ∈ df.cols then
    .ok ⟨df.cols.erase col, df.rows.map (fun r => r.filter (fun kv => kv.1 != col))⟩
  else .error (.keyError col)

/- data[columns], line 199: select and order the given columns. -/
def pd_select (df : DataFrame) (columns : List String) : Except PipelineError DataFrame :=
  match columns.find? (fun c => !(df.cols.contains c)) with
  | some c => .error (.keyError c)
  | none => .ok ⟨columns, df.rows.map (fun r => r.filter (fun kv => columns.contains kv.1))⟩

/- The fixed identity/location column prefix of lines 190-193. -/
def FIXED_COLUMNS : List String :=
  ["DATE", "STATION", "LATITUDE", "LONGITUDE", "ELEVATION", "NAME",
   "GSN FLAG", "HCN/CRN FLAG", "WMO ID"]

/- Lines 190-198: the fixed prefix extended with every requested metric that
is a column of the joined data (the default list when metrics is None). -/
def output_columns (metrics : Option (List String)) (data_cols : List String) :
    List String :=
  FIXED_COLUMNS ++ (metrics.getD DEFAULT_METRICS).filter (fun m => data_cols.contains m)

/- Everything noaa_api_connector reads from outside its arguments: the two
reference maps, the remote API (one RequestOutcome per URL), and the stations
metadata frame returned by load_dataset('stations'). The stations_metadata.txt
existence check and download_noaa_files call of lines 167-168 only populate
the files behind load_dataset, so they are subsumed by the stations field. -/
structure Env where
  countryMap : String → Option (List String)
  territoryMap : String → Option (List String)
  http : String → RequestOutcome Row String
  stations : DataFrame

/- The per-country loop of lines 170-181: result.extend(country_results) in
input order; the per-country errors are only logged (lines 176-179), the local
variable is overwritten on the next iteration, and nothing of it reaches the
return value. -/
def collect_records (env : Env) (start_date : String) (end_date : Option String)
    (metrics : Option (List String)) (now : String) :
    List String → Except PipelineError (List Row)
  | [] => .ok []
  | country :: rest =>
    match get_request_urls env.countryMap env.territoryMap country start_date
        end_date metrics now with
    | .error e => .error (.unknownCountry e)
    | .ok urls =>
      match get_parse_response env.http urls with
      | .error e => .error (.fetchFatal e)
      | .ok (country_results, _errors) =>
        match collect_records env start_date end_date metrics now rest with
        | .error e => .error e
        | .ok acc => .ok (country_results ++ acc)

/- noaa_api_connector, lines 150-199. Its only return value is the assembled
frame data[columns]. -/
def noaa_api_connector (env : Env) (countries : List String) (start_date : String)
    (end_date : Option String) (metrics : Option (List String)) (now : String) :
    Except PipelineError DataFrame := do
  let result ← collect_records env start_date end_date metrics now countries
  let data := pd_DataFrame result
  let data ← pd_merge_left data env.stations "STATION" "ID"
  let data ← pd_del data "ID"
  let data ← pd_del data "STATE"
  let columns := output_columns metrics data.cols
  pd_select data columns

/- Concrete reference data used by the witnesses. -/
def countryMapW : String → Option (List String) :=
  fun c => if c = "US" then some ["T1", "T2", "T3"] else none

def territoryMapW : String → Option (List String) :=
  fun t =>
    if t = "T1" then some ["A", "B"]
    else if t = "T3" then some ["B"]
    else none

def httpW : String → RequestOutcome Nat String :=
  fun u =>
    if u = "a" then .httpError (some "bad request")
    else if u = "b" then .success (some [7, 8])
    else .transportError

def countryMapBig : String → Option (List String) :=
  fun c => if c = "CA" then some ["T0"] else none

def territoryMapBig : String → Option (List String) :=
  fun t => if t = "T0" then some ((List.range 120).map (fun i => "S" ++ toString i)) else none

/- A two-country snapshot for the driver-level claims: "US" resolves to the
single station US1 and "CA" to CA1, station metadata exists for CA1 only. -/
def countryMapDrv : String → Option (List String) :=
  fun c => if c = "US" then some ["TU"] else if c = "CA" then some ["TC"] else none

def territoryMapDrv : String → Option (List String) :=
  fun t => if t = "TU" then some ["US1"] else if t = "TC" then some ["CA1"] else none

def urlUS : String := make_url "US1" "2020-01-01" "2020-03-31" DEFAULT_METRICS

def urlCA : String := make_url "CA1" "2020-01-01" "2020-03-31" DEFAULT_METRICS

def recCA : Row := [("DATE", "2020-01-02"), ("STATION", "CA1"), ("TMAX", "5.0")]

def stationRowCA : Row :=
  [("ID", "CA1"), ("LATITUDE", "45.0"), ("LONGITUDE", "-75.0"), ("ELEVATION", "100"),
   ("STATE", ""), ("NAME", "OTTAWA"), ("GSN FLAG", ""), ("HCN/CRN FLAG", ""), ("WMO ID", "71000")]

def stationsW : DataFrame :=
  ⟨["ID", "LATITUDE", "LONGITUDE", "ELEVATION", "STATE", "NAME",
    "GSN FLAG", "HCN/CRN FLAG", "WMO ID"],
   [stationRowCA]⟩

/- Remote snapshot in which the US request fails raise_for_status with a JSON
error body and the CA request succeeds with one record. -/
def httpFail : String → RequestOutcome Row String :=
  fun u =>
    if u = urlUS then .httpError (some "502 bad gateway")
    else if u = urlCA then .success (some [recCA])
    else .transportError

/- The same snapshot except that the US request succeeds with zero records. -/
def httpNoFail : String → RequestOutcome Row String :=
  fun u =>
    if u = urlUS then .success (some [])
    else if u = urlCA then .success (some [recCA])
    else .transportError

def envFail : Env := ⟨countryMapDrv, territoryMapDrv, httpFail, stationsW⟩

def envNoFail : Env := ⟨countryMapDrv, territoryMapDrv, httpNoFail, stationsW⟩

def dfFail : DataFrame :=
  (noaa_api_connector envFail ["US", "CA"] "2020-01-01" (some "2020-03-31")
    none "2020-04-01").toOption.getD ⟨[], []⟩

/- The intermediate values of the envFail run of noaa_api_connector: the
accumulated records, the frame after the left merge with the stations
metadata, and the frames after each of the two column deletions (the joined
data whose columns line 198 consults). -/
def resultW : List Row :=
  (collect_records envFail "2020-01-01" (some "2020-03-31") none "2020-04-01"
    ["US", "CA"]).toOption.getD []

def d1W : DataFrame :=
  (pd_merge_left (pd_DataFrame resultW) envFail.stations "STATION" "ID").toOption.getD ⟨[], []⟩

def d2W : DataFrame := (pd_del d1W "ID").toOption.getD ⟨[], []⟩

def d3W : DataFrame := (pd_del d2W "STATE").toOption.getD ⟨[], []⟩

end NOAA

namespace NOAA

/-- C2: every element of the fixed default metric list is claimed to belong to
the documented valid metric set; on the code this fails: DEFAULT_METRICS
contains "PCRP", which is not in the documented set (which has "PRCP"). -/
theorem default_metrics_disagree_with_documented_set :
    "PCRP" ∈ DEFAULT_METRICS ∧ "PCRP" ∉ VALID_METRICS ∧
      ¬ (∀ m ∈ DEFAULT_METRICS, m ∈ VALID_METRICS) := by
  refine ⟨by decide, by decide, fun h => ?_⟩
  exact absurd (h "PCRP" (by decide)) (by decide)

/-- C5: for a country code absent from the country map, station resolution
fails with the unknown-country error, and get_request_urls fails the same way,
so no request URL is ever produced for that call. -/
theorem unknown_country_aborts (countryMap territoryMap : String → Option (List String))
    (country start_date now : String) (end_date : Option String)
    (metrics : Option (List String)) (h : countryMap country = none) :
    get_stations_by_country countryMap territoryMap country
        = .error (.wrongCountryCode country) ∧
      get_request_urls countryMap territoryMap country start_date end_date metrics now
        = .error (.wrongCountryCode country) := by
  have hs : get_stations_by_country countryMap territoryMap country
      = .error (.wrongCountryCode country) := by
    unfold get_stations_by_country
    rw [h]
  refine ⟨hs, ?_⟩
  unfold get_request_urls
  rw [hs]

/-- C5 witness: the concrete country code "ZZ" is unknown to countryMapW. -/
theorem unknown_country_aborts_witness :
    get_stations_by_country countryMapW territoryMapW "ZZ"
        = .error (.wrongCountryCode "ZZ") ∧
      get_request_urls countryMapW territoryMapW "ZZ" "2020-01-01" none none "2020-03-31"
        = .error (.wrongCountryCode "ZZ") :=
  unknown_country_aborts countryMapW territoryMapW "ZZ" "2020-01-01" "2020-03-31"
    none none rfl

theorem foldl_extend_stations (territoryMap : String → Option (List String))
    (codes : List String) (init : List String) :
    codes.foldl (fun stations code =>
        match territoryMap code with
        | none => stations
        | some code_stations => stations ++ code_stations) init
      = init ++ (codes.filterMap territoryMap).flatten := by
  induction codes generalizing init with
  | nil => simp
  | cons c cs ih =>
    cases h : territoryMap c with
    | none => simp [List.foldl_cons, h, ih, List.filterMap_cons]
    | some s => simp [List.foldl_cons, h, ih, List.filterMap_cons]

theorem count_flatten_filterMap (territoryMap : String → Option (List String))
    (codes : List String) (s : String) :
    ((codes.filterMap territoryMap).flatten).count s
      = (codes.map (fun c => ((territoryMap c).getD []).count s)).sum := by
  induction codes with
  | nil => simp
  | cons c cs ih =>
    cases hc : territoryMap c with
    | none => simp [List.filterMap_cons, hc, ih]
    | some st => simp [List.filterMap_cons, hc, ih, List.count_append]

/-- C7: for a known country, the resolved station list is the concatenation,
in territory order, of the station lists of the territories present in the
territory map (absent territories contribute nothing); no deduplication
happens: the multiplicity of every station id is the sum of its per-territory
multiplicities. -/
theorem known_country_station_concatenation
    (countryMap territoryMap : String → Option (List String))
    (country : String) (codes : List String) (h : countryMap country = some codes) :
    get_stations_by_country countryMap territoryMap country
        = .ok ((codes.filterMap territoryMap).flatten) ∧
      ∀ s : String, ((codes.filterMap territoryMap).flatten).count s
        = (codes.map (fun c => ((territoryMap c).getD []).count s)).sum := by
  constructor
  · simp [get_stations_by_country, h, foldl_extend_stations]
  · intro s
    exact count_flatten_filterMap territoryMap codes s

theorem chunked_nil {α : Type} (k : Nat) : chunked k ([] : List α) = [] := by
  unfold chunked
  cases k with
  | zero => simp
  | succ k =>
    have h : (List.length ([] : List α) + (k + 1) - 1) / (k + 1) = 0 :=
      Nat.div_eq_of_lt (by simp)
    rw [h]
    rfl

theorem chunked_cons {α : Type} (k : Nat) (hk : 0 < k) (l : List α) (hl : l ≠ []) :
    chunked k l = l.take k :: chunked k (l.drop k) := by
  unfold chunked
  have hL : 0 < l.length := List.length_pos.mpr hl
  have hcount : (l.length + k - 1) / k = ((l.drop k).length + k - 1) / k + 1 := by
    rw [List.length_drop]
    rcases le_or_lt k l.length with h | h
    · have h1 : l.length + k - 1 = (l.length - k + k - 1) + k := by omega
      rw [h1, Nat.add_div_right _ hk]
    · have h3 : l.length - k + k - 1 < k := by omega
      rw [Nat.div_eq_of_lt h3]
      have h4 : (1 : Nat) * k ≤ l.length + k - 1 := by omega
      have h5 : l.length + k - 1 < (1 + 1) * k := by omega
      rw [Nat.div_eq_of_lt_le h4 h5]
  rw [hcount, List.range'_succ, List.map_cons, List.drop_zero]
  congr 1
  have hzk : (0 + k) = k + 0 := by omega
  rw [hzk, ← List.map_add_range' k 0 _ k, List.map_map]
  refine List.map_congr_left fun i _ => ?_
  simp only [Function.comp_apply]
  rw [List.drop_drop]

theorem chunked_ne_nil {α : Type} (k : Nat) (hk : 0 < k) (l : List α) (hl : l ≠ []) :
    chunked k l ≠ [] := by
  rw [chunked_cons k hk l hl]
  simp

theorem chunked_flatten {α : Type} (k : Nat) (hk : 0 < k) (l : List α) :
    (chunked k l).flatten = l := by
  by_cases hl : l = []
  · subst hl
    rw [chunked_nil]
    rfl
  · rw [chunked_cons k hk l hl, List.flatten_cons, chunked_flatten k hk (l.drop k)]
    exact List.take_append_drop k l
termination_by l.length
decreasing_by
  have hL : 0 < l.length := List.length_pos.mpr hl
  simp only [List.length_drop]
  omega

theorem chunked_length_le {α : Type} (k : Nat) (l : List α) :
    ∀ c ∈ chunked k l, c.length ≤ k := by
  intro c hc
  unfold chunked at hc
  simp only [List.mem_map] at hc
  obtain ⟨i, -, rfl⟩ := hc
  rw [List.length_take]
  omega

theorem chunked_dropLast_length {α : Type} (k : Nat) (hk : 0 < k) (l : List α) :
    ∀ c ∈ (chunked k l).dropLast, c.length = k := by
  by_cases hl : l = []
  · subst hl
    rw [chunked_nil]
    intro c hc
    simp at hc
  · rw [chunked_cons k hk l hl]
    by_cases hd : l.drop k = []
    · rw [hd, chunked_nil]
      intro c hc
      simp at hc
    · obtain ⟨y, ys, hys⟩ := List.exists_cons_of_ne_nil (chunked_ne_nil k hk _ hd)
      rw [hys, List.dropLast_cons₂]
      intro c hc
      rcases List.mem_cons.mp hc with rfl | hc
      · have hkl : k ≤ l.length := by
          by_contra hlt
          exact hd (List.drop_eq_nil_iff.mpr (by omega))
        rw [List.length_take]
        omega
      · exact chunked_dropLast_length k hk (l.drop k) c (by rw [hys]; exact hc)
termination_by l.length
decreasing_by
  have hL : 0 < l.length := List.length_pos.mpr hl
  simp only [List.length_drop]
  omega

/-- C7 witness: "US" resolves through territories T1, T2, T3; T2 is absent
from the territory map and is skipped; the duplicate station "B" is kept. -/
theorem known_country_station_concatenation_witness :
    get_stations_by_country countryMapW territoryMapW "US"
        = .ok (((["T1", "T2", "T3"] : List String).filterMap territoryMapW).flatten) ∧
      ∀ s : String, ((((["T1", "T2", "T3"] : List String)).filterMap territoryMapW).flatten).count s
        = ((["T1", "T2", "T3"] : List String).map
            (fun c => ((territoryMapW c).getD []).count s)).sum :=
  known_country_station_concatenation countryMapW territoryMapW "US" ["T1", "T2", "T3"] rfl

theorem chunked_length {α : Type} (k : Nat) (l : List α) :
    (chunked k l).length = (l.length + k - 1) / k := by
  simp [chunked]

theorem get_request_urls_eq_batches (cm tm : String → Option (List String))
    (country start_date now : String) (end_date : Option String)
    (metrics : Option (List String)) (sl : List String)
    (h : get_stations_by_country cm tm country = .ok sl) :
    get_request_urls cm tm country start_date end_date metrics now
      = .ok ((station_batches sl).map fun chunk =>
          make_url (String.intercalate "," chunk) start_date (end_date.getD now)
            (metrics.getD DEFAULT_METRICS)) := by
  unfold get_request_urls station_batches
  rw [h]
  by_cases hlt : sl.length < MAX_STATIONS_REQ
  · simp [hlt]
  · simp [hlt]

/-- C3: with a resolved station list of length n, get_request_urls emits one
URL per batch; there are max 1 (ceil (n / 50)) batches; all batches except a
possibly shorter last one have exactly 50 stations; concatenating the batches
reproduces the station list; and for n = 0 one request is still emitted, with
an empty stations parameter. -/
theorem get_request_urls_batching (cm tm : String → Option (List String))
    (country start_date now : String) (end_date : Option String)
    (metrics : Option (List String)) (sl : List String)
    (h : get_stations_by_country cm tm country = .ok sl) :
    get_request_urls cm tm country start_date end_date metrics now
        = .ok ((station_batches sl).map fun chunk =>
            make_url (String.intercalate "," chunk) start_date (end_date.getD now)
              (metrics.getD DEFAULT_METRICS)) ∧
      (station_batches sl).length = max 1 ((sl.length + 49) / 50) ∧
      (station_batches sl).flatten = sl ∧
      (∀ c ∈ (station_batches sl).dropLast, c.length = 50) ∧
      (∀ c ∈ station_batches sl, c.length ≤ 50) ∧
      (sl = [] →
        get_request_urls cm tm country start_date end_date metrics now
          = .ok [make_url "" start_date (end_date.getD now)
              (metrics.getD DEFAULT_METRICS)]) := by
  have hurls := get_request_urls_eq_batches cm tm country start_date now end_date metrics sl h
  refine ⟨hurls, ?_, ?_, ?_, ?_, ?_⟩
  · unfold station_batches
    by_cases hlt : sl.length < MAX_STATIONS_REQ
    · have hd2 : (sl.length + 49) / 50 < 2 := by
        rw [Nat.div_lt_iff_lt_mul (by omega)]
        simp [MAX_STATIONS_REQ] at hlt
        omega
      simp [hlt]
      omega
    · simp [hlt, chunked_length]
      simp [MAX_STATIONS_REQ] at hlt ⊢
      have hd1 : 1 ≤ (sl.length + 49) / 50 := by
        rw [Nat.le_div_iff_mul_le (by omega)]
        omega
      omega
  · unfold station_batches
    by_cases hlt : sl.length < MAX_STATIONS_REQ
    · simp [hlt]
    · simp [hlt]
      exact chunked_flatten MAX_STATIONS_REQ (by simp [MAX_STATIONS_REQ]) sl
  · unfold station_batches
    by_cases hlt : sl.length < MAX_STATIONS_REQ
    · simp [hlt]
    · simp only [hlt, if_false]
      exact chunked_dropLast_length MAX_STATIONS_REQ (by simp [MAX_STATIONS_REQ]) sl
  · unfold station_batches
    by_cases hlt : sl.length < MAX_STATIONS_REQ
    · intro c hc
      simp [hlt] at hc
      subst hc
      simp [MAX_STATIONS_REQ] at hlt
      omega
    · intro c hc
      simp only [hlt, if_false] at hc
      exact chunked_length_le MAX_STATIONS_REQ sl c hc
  · intro hnil
    subst hnil
    rw [hurls]
    rfl

/-- C3 witness: a country with 120 resolved stations, hence 3 batches. -/
theorem get_request_urls_batching_witness :
    get_request_urls countryMapBig territoryMapBig "CA" "2020-01-01" (some "2020-03-31")
          none "2020-04-01"
        = .ok ((station_batches (((["T0"] : List String).filterMap territoryMapBig).flatten)).map
            fun chunk =>
              make_url (String.intercalate "," chunk) "2020-01-01"
                ((some "2020-03-31").getD "2020-04-01")
                ((none : Option (List String)).getD DEFAULT_METRICS)) ∧
      (station_batches (((["T0"] : List String).filterMap territoryMapBig).flatten)).length
        = max 1 (((((["T0"] : List String).filterMap territoryMapBig).flatten).length + 49) / 50) :=
  have h := get_request_urls_batching countryMapBig territoryMapBig "CA" "2020-01-01"
    "2020-04-01" (some "2020-03-31") none
    (((["T0"] : List String).filterMap territoryMapBig).flatten)
    ((known_country_station_concatenation countryMapBig territoryMapBig "CA" ["T0"] rfl).1)
  ⟨h.1, h.2.1⟩

/-- C4: with one request failing raise_for_status (with a JSON error body) and
one succeeding, get_parse_response returns exactly the succeeding request's
records and exactly one error entry, in either request order: the failure
neither drops nor alters the successful records, and processing continues past
the failure. -/
theorem partial_failure_isolation {Rec Err : Type} (http : String → RequestOutcome Rec Err)
    (u1 u2 : String) (payload : Err) (records : List Rec)
    (h1 : http u1 = .httpError (some payload))
    (h2 : http u2 = .success (some records)) :
    get_parse_response http [u1, u2] = .ok (records, [⟨u1, payload⟩]) ∧
      get_parse_response http [u2, u1] = .ok (records, [⟨u1, payload⟩]) := by
  constructor <;> simp [get_parse_response, h1, h2]

/-- C4 witness: url "a" fails with a payload, url "b" succeeds with two
records. -/
theorem partial_failure_isolation_witness :
    get_parse_response httpW ["a", "b"] = .ok ([7, 8], [⟨"a", "bad request"⟩]) ∧
      get_parse_response httpW ["b", "a"] = .ok ([7, 8], [⟨"a", "bad request"⟩]) :=
  partial_failure_isolation httpW "a" "b" "bad request" [7, 8] rfl rfl

/-- C10: when get_parse_response returns, every url contributed to exactly one
accumulator: the results are the concatenation, in request order, of the
record lists of the successful responses, the errors are the per-url error
entries of the failed responses in request order (so at most one per url, and
never more errors than urls), and no url contributes to both. -/
theorem get_parse_response_accumulators {Rec Err : Type}
    (http : String → RequestOutcome Rec Err) (urls : List String)
    (results : List Rec) (errors : List (FetchError Err))
    (h : get_parse_response http urls = .ok (results, errors)) :
    results = (urls.filterMap (successRecords http)).flatten ∧
      errors = urls.filterMap (errorEntry http) ∧
      errors.length ≤ urls.length ∧
      ∀ u ∈ urls, ((successRecords http u).isSome ∧ errorEntry http u = none) ∨
        (successRecords http u = none ∧ (errorEntry http u).isSome) := by
  induction urls generalizing results errors with
  | nil =>
    simp [get_parse_response] at h
    obtain ⟨hr, he⟩ := h
    subst hr
    subst he
    simp
  | cons u rest ih =>
    rw [get_parse_response] at h
    cases hu : http u with
    | transportError => rw [hu] at h; simp at h
    | httpError payload =>
      cases payload with
      | none => rw [hu] at h; simp at h
      | some p =>
        rw [hu] at h
        cases hr : get_parse_response http rest with
        | error e => rw [hr] at h; simp at h
        | ok pair =>
          obtain ⟨rs, es⟩ := pair
          rw [hr] at h
          simp only [Except.ok.injEq, Prod.mk.injEq] at h
          obtain ⟨hres, herr⟩ := h
          subst hres
          subst herr
          obtain ⟨ih1, ih2, ih3, ih4⟩ := ih rs es hr
          have hsu : successRecords http u = none := by simp [successRecords, hu]
          have heu : errorEntry http u = some ⟨u, p⟩ := by simp [errorEntry, hu]
          refine ⟨?_, ?_, ?_, ?_⟩
          · rw [List.filterMap_cons, hsu]
            exact ih1
          · rw [List.filterMap_cons, heu, ← ih2]
          · simp
            omega
          · intro v hv
            rcases List.mem_cons.mp hv with rfl | hv
            · right
              exact ⟨hsu, by simp [heu]⟩
            · exact ih4 v hv
    | success body =>
      cases body with
      | none => rw [hu] at h; simp at h
      | some records =>
        rw [hu] at h
        cases hr : get_parse_response http rest with
        | error e => rw [hr] at h; simp at h
        | ok pair =>
          obtain ⟨rs, es⟩ := pair
          rw [hr] at h
          simp only [Except.ok.injEq, Prod.mk.injEq] at h
          obtain ⟨hres, herr⟩ := h
          subst hres
          subst herr
          obtain ⟨ih1, ih2, ih3, ih4⟩ := ih rs es hr
          have hsu : successRecords http u = some records := by simp [successRecords, hu]
          have heu : errorEntry http u = none := by simp [errorEntry, hu]
          refine ⟨?_, ?_, ?_, ?_⟩
          · rw [List.filterMap_cons, hsu, List.flatten_cons, ← ih1]
          · rw [List.filterMap_cons, heu]
            exact ih2
          · simp
            omega
          · intro v hv
            rcases List.mem_cons.mp hv with rfl | hv
            · left
              exact ⟨by simp [hsu], heu⟩
            · exact ih4 v hv

/-- C10 witness: the two-url snapshot httpW, one success and one failure. -/
theorem get_parse_response_accumulators_witness :
    ([7, 8] : List Nat) = ((["a", "b"]).filterMap (successRecords httpW)).flatten ∧
      [(⟨"a", "bad request"⟩ : FetchError String)]
        = (["a", "b"]).filterMap (errorEntry httpW) ∧
      [(⟨"a", "bad request"⟩ : FetchError String)].length ≤ (["a", "b"]).length ∧
      ∀ u ∈ (["a", "b"] : List String),
        ((successRecords httpW u).isSome ∧ errorEntry httpW u = none) ∨
          (successRecords httpW u = none ∧ (errorEntry httpW u).isSome) :=
  get_parse_response_accumulators httpW ["a", "b"] [7, 8] [⟨"a", "bad request"⟩] rfl

theorem get_parse_response_logged_snd {Rec Err : Type}
    (http : String → RequestOutcome Rec Err) (urls : List String) :
    (get_parse_response_logged http urls).2 = get_parse_response http urls := by
  induction urls with
  | nil => rfl
  | cons u rest ih =>
    rw [get_parse_response_logged, get_parse_response]
    cases http u with
    | transportError => rfl
    | httpError payload => cases payload <;> simp [← ih]
    | success body => cases body <;> simp [← ih]

theorem get_parse_response_all_ok {Rec Err : Type}
    (http : String → RequestOutcome Rec Err) (urls : List String) :
    (∀ u ∈ urls, nonFatal (http u) = true) →
      (get_parse_response_logged http urls).1 = urls ∧
        ∃ p, get_parse_response http urls = .ok p := by
  induction urls with
  | nil => exact fun _ => ⟨rfl, ⟨([], []), rfl⟩⟩
  | cons u rest ih =>
    intro h
    have hu := h u (List.mem_cons_self u rest)
    obtain ⟨ih1, ⟨⟨rs, es⟩, ih2⟩⟩ := ih (fun v hv => h v (List.mem_cons_of_mem u hv))
    cases hc : http u with
    | transportError => rw [hc] at hu; simp [nonFatal] at hu
    | httpError payload =>
      cases payload with
      | none => rw [hc] at hu; simp [nonFatal] at hu
      | some p =>
        constructor
        · rw [get_parse_response_logged, hc]
          simp [ih1]
        · refine ⟨(rs, ⟨u, p⟩ :: es), ?_⟩
          rw [get_parse_response, hc, ih2]
    | success body =>
      cases body with
      | none => rw [hc] at hu; simp [nonFatal] at hu
      | some records =>
        constructor
        · rw [get_parse_response_logged, hc]
          simp [ih1]
        · refine ⟨(records ++ rs, es), ?_⟩
          rw [get_parse_response, hc, ih2]

theorem get_parse_response_fatal_aborts {Rec Err : Type}
    (http : String → RequestOutcome Rec Err) (pre post : List String) (u : String)
    (hpre : ∀ v ∈ pre, nonFatal (http v) = true) :
    (http u = .transportError →
        get_parse_response http (pre ++ u :: post) = .error (.transport u) ∧
          (get_parse_response_logged http (pre ++ u :: post)).1 = pre ++ [u]) ∧
      (http u = .success none →
        get_parse_response http (pre ++ u :: post) = .error (.jsonDecode u) ∧
          (get_parse_response_logged http (pre ++ u :: post)).1 = pre ++ [u]) := by
  induction pre with
  | nil =>
    constructor
    · intro hu
      constructor
      · rw [List.nil_append, get_parse_response, hu]
      · rw [List.nil_append, get_parse_response_logged, hu]
        rfl
    · intro hu
      constructor
      · rw [List.nil_append, get_parse_response, hu]
      · rw [List.nil_append, get_parse_response_logged, hu]
        rfl
  | cons v vs ih =>
    have hv := hpre v (List.mem_cons_self v vs)
    obtain ⟨ih1, ih2⟩ := ih (fun w hw => hpre w (List.mem_cons_of_mem v hw))
    constructor
    · intro hu
      obtain ⟨ha, hb⟩ := ih1 hu
      cases hc : http v with
      | transportError => rw [hc] at hv; simp [nonFatal] at hv
      | httpError payload =>
        cases payload with
        | none => rw [hc] at hv; simp [nonFatal] at hv
        | some p =>
          constructor
          · rw [List.cons_append, get_parse_response, hc, ha]
          · rw [List.cons_append, get_parse_response_logged, hc]
            simp [hb]
      | success body =>
        cases body with
        | none => rw [hc] at hv; simp [nonFatal] at hv
        | some records =>
          constructor
          · rw [List.cons_append, get_parse_response, hc, ha]
          · rw [List.cons_append, get_parse_response_logged, hc]
            simp [hb]
    · intro hu
      obtain ⟨ha, hb⟩ := ih2 hu
      cases hc : http v with
      | transportError => rw [hc] at hv; simp [nonFatal] at hv
      | httpError payload =>
        cases payload with
        | none => rw [hc] at hv; simp [nonFatal] at hv
        | some p =>
          constructor
          · rw [List.cons_append, get_parse_response, hc, ha]
          · rw [List.cons_append, get_parse_response_logged, hc]
            simp [hb]
      | success body =>
        cases body with
        | none => rw [hc] at hv; simp [nonFatal] at hv
        | some records =>
          constructor
          · rw [List.cons_append, get_parse_response, hc, ha]
          · rw [List.cons_append, get_parse_response_logged, hc]
            simp [hb]

/-- C8: get_parse_response makes exactly one requests.get call per url (the
logged call list is the url list itself when every response is handled), and
only raise_for_status failures with a JSON body are caught: a transport-level
failure, or a non-JSON body on a successful response, aborts the whole call
with an uncaught exception right there, the remaining urls never being
attempted. -/
theorem single_attempt_only_http_failures_caught {Rec Err : Type}
    (http : String → RequestOutcome Rec Err) (urls : List String) :
    (get_parse_response_logged http urls).2 = get_parse_response http urls ∧
      ((∀ u ∈ urls, nonFatal (http u) = true) →
        (get_parse_response_logged http urls).1 = urls ∧
          ∃ p, get_parse_response http urls = .ok p) ∧
      ∀ pre u post, urls = pre ++ u :: post →
        (∀ v ∈ pre, nonFatal (http v) = true) →
        (http u = .transportError →
            get_parse_response http urls = .error (.transport u) ∧
              (get_parse_response_logged http urls).1 = pre ++ [u]) ∧
          (http u = .success none →
            get_parse_response http urls = .error (.jsonDecode u) ∧
              (get_parse_response_logged http urls).1 = pre ++ [u]) := by
  refine ⟨get_parse_response_logged_snd http urls,
    fun h => get_parse_response_all_ok http urls h, ?_⟩
  rintro pre u post rfl hpre
  exact get_parse_response_fatal_aborts http pre post u hpre

/-- C8 witness: on urls ["b", "c"], httpW answers "b" and raises a transport
error on "c": the call aborts there; on ["b"] alone every request is attempted
exactly once and the call returns. -/
theorem single_attempt_only_http_failures_caught_witness :
    (get_parse_response_logged httpW ["b", "c"]).2 = get_parse_response httpW ["b", "c"] ∧
      get_parse_response httpW ["b", "c"] = .error (.transport "c") ∧
      (get_parse_response_logged httpW ["b", "c"]).1 = ["b"] ++ ["c"] ∧
      (get_parse_response_logged httpW ["b"]).1 = ["b"] ∧
      ∃ p, get_parse_response httpW ["b"] = .ok p := by
  have h := single_attempt_only_http_failures_caught httpW ["b", "c"]
  have h2 := (single_attempt_only_http_failures_caught httpW ["b"]).2.1 (by decide)
  have h3 := (h.2.2 ["b"] "c" [] rfl (by decide)).1 rfl
  exact ⟨h.1, h3.1, h3.2, h2.1, h2.2⟩

theorem pd_select_cols (df : DataFrame) (columns : List String) (df2 : DataFrame)
    (h : pd_select df columns = .ok df2) : df2.cols = columns := by
  unfold pd_select at h
  cases hf : columns.find? (fun c => !(df.cols.contains c)) with
  | some c => rw [hf] at h; simp at h
  | none =>
    rw [hf] at h
    simp only [Except.ok.injEq] at h
    rw [← h]

theorem output_columns_spec (metrics : Option (List String)) (data_cols : List String) :
    (output_columns metrics data_cols).take 9 = FIXED_COLUMNS ∧
      (output_columns metrics data_cols).drop 9
        = (metrics.getD DEFAULT_METRICS).filter (fun m => data_cols.contains m) ∧
      ((output_columns metrics data_cols).drop 9).Sublist (metrics.getD DEFAULT_METRICS) ∧
      ∀ m, m ∈ (output_columns metrics data_cols).drop 9 ↔
        m ∈ metrics.getD DEFAULT_METRICS ∧ m ∈ data_cols := by
  have h9 : (9 : Nat) = FIXED_COLUMNS.length := rfl
  unfold output_columns
  refine ⟨?_, ?_, ?_, ?_⟩
  · rw [h9, List.take_left]
  · rw [h9, List.drop_left]
  · rw [h9, List.drop_left]
    exact List.filter_sublist _
  · intro m
    rw [h9, List.drop_left, List.mem_filter, List.elem_iff]

/-- C6: whenever the pipeline returns a frame, its columns are the fixed
9-column identity/location prefix followed by exactly those requested metrics
(default order when none are requested) that occur as columns of the joined
data — the frame d3 obtained from the fetched records by the left merge with
the stations metadata and the two column deletions, whose columns line 198
consults — in request order: a requested metric present in d3 appears, and a
requested metric absent from d3 is omitted without error. -/
theorem output_column_order (env : Env) (countries : List String)
    (start_date : String) (end_date : Option String) (metrics : Option (List String))
    (now : String) (result : List Row) (d1 d2 d3 df : DataFrame)
    (h0 : collect_records env start_date end_date metrics now countries = .ok result)
    (h1 : pd_merge_left (pd_DataFrame result) env.stations "STATION" "ID" = .ok d1)
    (h2 : pd_del d1 "ID" = .ok d2)
    (h3 : pd_del d2 "STATE" = .ok d3)
    (h : noaa_api_connector env countries start_date end_date metrics now = .ok df) :
    df.cols = output_columns metrics d3.cols ∧
      df.cols.take 9 = FIXED_COLUMNS ∧
      df.cols.drop 9
        = (metrics.getD DEFAULT_METRICS).filter (fun m => d3.cols.contains m) ∧
      (df.cols.drop 9).Sublist (metrics.getD DEFAULT_METRICS) ∧
      ∀ m, m ∈ df.cols.drop 9 ↔ m ∈ metrics.getD DEFAULT_METRICS ∧ m ∈ d3.cols := by
  unfold noaa_api_connector at h
  simp only [bind, Except.bind] at h
  rw [h0] at h
  simp only [] at h
  rw [h1] at h
  simp only [] at h
  rw [h2] at h
  simp only [] at h
  rw [h3] at h
  simp only [] at h
  have hcols := pd_select_cols d3 (output_columns metrics d3.cols) df h
  obtain ⟨s1, s2, s3, s4⟩ := output_columns_spec metrics d3.cols
  exact ⟨hcols, by rw [hcols]; exact s1, by rw [hcols]; exact s2,
    by rw [hcols]; exact s3, by rw [hcols]; exact s4⟩

/-- C6 witness: in the concrete two-country run envFail, the joined frame d3W
holds TMAX and none of the other default metrics, and the returned frame's
columns are exactly the fixed 9-column prefix followed by TMAX alone. -/
theorem output_column_order_witness :
    (dfFail.cols = output_columns none d3W.cols ∧
        dfFail.cols.take 9 = FIXED_COLUMNS ∧
        dfFail.cols.drop 9
          = ((none : Option (List String)).getD DEFAULT_METRICS).filter
              (fun m => d3W.cols.contains m) ∧
        (dfFail.cols.drop 9).Sublist ((none : Option (List String)).getD DEFAULT_METRICS) ∧
        ∀ m, m ∈ dfFail.cols.drop 9 ↔
          m ∈ (none : Option (List String)).getD DEFAULT_METRICS ∧ m ∈ d3W.cols) ∧
      "TMAX" ∈ d3W.cols ∧
      dfFail.cols.drop 9 = ["TMAX"] ∧
      dfFail.cols = FIXED_COLUMNS ++ ["TMAX"] :=
  ⟨output_column_order envFail ["US", "CA"] "2020-01-01" (some "2020-03-31") none
      "2020-04-01" resultW d1W d2W d3W dfFail rfl rfl rfl rfl rfl,
    by decide, rfl, rfl⟩

theorem get_request_urls_now_irrelevant (cm tm : String → Option (List String))
    (country start_date d now now2 : String) (metrics : Option (List String)) :
    get_request_urls cm tm country start_date (some d) metrics now
      = get_request_urls cm tm country start_date (some d) metrics now2 := rfl

theorem collect_records_now_irrelevant (env : Env) (start_date d : String)
    (metrics : Option (List String)) (now now2 : String) (countries : List String) :
    collect_records env start_date (some d) metrics now countries
      = collect_records env start_date (some d) metrics now2 countries := by
  induction countries with
  | nil => rfl
  | cons c cs ih =>
    rw [collect_records, collect_records,
      get_request_urls_now_irrelevant env.countryMap env.territoryMap c start_date d
        now now2 metrics, ih]

/-- C9: the pipeline is a deterministic function of its arguments, the remote
snapshot, the reference data and the ambient current date: identical inputs
give identical output; and when the end date is supplied, the ambient current
date does not influence the output at all. -/
theorem pipeline_deterministic (env : Env) (countries : List String) (start_date : String)
    (end_date : Option String) (metrics : Option (List String)) (now now2 : String) :
    noaa_api_connector env countries start_date end_date metrics now
        = noaa_api_connector env countries start_date end_date metrics now ∧
      ∀ d, end_date = some d →
        noaa_api_connector env countries start_date end_date metrics now
          = noaa_api_connector env countries start_date end_date metrics now2 := by
  refine ⟨rfl, ?_⟩
  rintro d rfl
  unfold noaa_api_connector
  rw [collect_records_now_irrelevant env start_date d metrics now now2 countries]

/-- C9 witness: the concrete envFail run is unchanged under a different
ambient current date once the end date is given. -/
theorem pipeline_deterministic_witness :
    noaa_api_connector envFail ["US", "CA"] "2020-01-01" (some "2020-03-31") none "2020-04-01"
        = noaa_api_connector envFail ["US", "CA"] "2020-01-01" (some "2020-03-31") none
            "2020-04-01" ∧
      noaa_api_connector envFail ["US", "CA"] "2020-01-01" (some "2020-03-31") none "2020-04-01"
        = noaa_api_connector envFail ["US", "CA"] "2020-01-01" (some "2020-03-31") none
            "2099-12-31" :=
  ⟨(pipeline_deterministic envFail ["US", "CA"] "2020-01-01" (some "2020-03-31") none
      "2020-04-01" "2099-12-31").1,
    (pipeline_deterministic envFail ["US", "CA"] "2020-01-01" (some "2020-03-31") none
      "2020-04-01" "2099-12-31").2 "2020-03-31" rfl⟩

/-- C1: the per-request errors are not returned by noaa_api_connector. In the
concrete run envFail the US request fails and get_parse_response reports
exactly one error for it, yet the pipeline's return value is a bare frame,
equal to the one of the error-free run envNoFail: the claimed (table, errors)
pair, promised by the function's own docstring, is not what the code returns,
the errors being logged and discarded. -/
theorem errors_not_returned :
    get_parse_response envFail.http [urlUS]
        = .ok ([], [⟨urlUS, "502 bad gateway"⟩]) ∧
      noaa_api_connector envFail ["US", "CA"] "2020-01-01" (some "2020-03-31") none
          "2020-04-01"
        = noaa_api_connector envNoFail ["US", "CA"] "2020-01-01" (some "2020-03-31") none
            "2020-04-01" ∧
      noaa_api_connector envFail ["US", "CA"] "2020-01-01" (some "2020-03-31") none
          "2020-04-01" = .ok dfFail :=
  ⟨rfl, rfl, rfl⟩

end NOAA
